import Mathlib

/-!
Verification development for the OCR request engine of the Chiang-rai CCTV
license-plate repository (`app/gemini.py`, class `GeminiOCR`).

The Python code is shallowly embedded: pure helpers become Lean functions,
Python floats are modelled by exact rationals (the confidence and delay
arithmetic never depends on IEEE rounding), `random.uniform(0, b)` becomes an
explicit jitter parameter constrained to `[0, b]`, the remote API call becomes
an explicit stream of per-attempt outcomes, raising becomes `Except.error`,
and `time.sleep` / `processing_time` (wall-clock effects) are dropped.
Python `str.upper` / `str.lower` are modelled on the ASCII letters (the only
case-carrying characters appearing in the engine's sentinels and keywords;
Thai script has no case, matching Python, which maps it to itself).
-/

namespace CctvOcr

/-- Characters that are written via their code to keep them out of literals. -/
def btick : Char := Char.ofNat 96

def dquote : Char := Char.ofNat 34

def sq : Char := Char.ofNat 39

def lbrace : Char := Char.ofNat 123

def rbrace : Char := Char.ofNat 125

/-- ASCII model of Python `str.upper` on a single character. -/
def pyUpperChar (c : Char) : Char :=
  if 97 ≤ c.toNat ∧ c.toNat ≤ 122 then Char.ofNat (c.toNat - 32) else c

/-- ASCII model of Python `str.lower` on a single character. -/
def pyLowerChar (c : Char) : Char :=
  if 65 ≤ c.toNat ∧ c.toNat ≤ 90 then Char.ofNat (c.toNat + 32) else c

def pyUpper (s : String) : String := String.mk (s.data.map pyUpperChar)

def pyLower (s : String) : String := String.mk (s.data.map pyLowerChar)

/-- Whitespace for Python `str.strip()` and the regex class `\s`
(ASCII part; the engine's inputs carry no exotic Unicode spaces). -/
def pyIsWs (c : Char) : Bool :=
  c = ' ' || c = '\t' || c = '\n' || c = '\r' || c = '\x0B' || c = '\x0C'

def pyStripL (l : List Char) : List Char :=
  ((l.dropWhile pyIsWs).reverse.dropWhile pyIsWs).reverse

/-- Python `str.strip()`. -/
def pyStrip (s : String) : String := String.mk (pyStripL s.data)

/-- Python `str.strip(chars)` for a character class `p`. -/
def stripCharsL (p : Char → Bool) (l : List Char) : List Char :=
  ((l.dropWhile p).reverse.dropWhile p).reverse

/-- Boolean check that `n` is a leading segment of `l`. -/
def startsWithL : List Char → List Char → Bool
  | [], _ => true
  | _ :: _, [] => false
  | a :: as, b :: bs => a = b && startsWithL as bs

/-- Boolean check that `n` occurs contiguously inside `l`
(the Python `in` operator on strings). -/
def hasSubL (n : List Char) : List Char → Bool
  | [] => startsWithL n []
  | c :: cs => startsWithL n (c :: cs) || hasSubL n cs

def hasSubstring (needle hay : String) : Bool := hasSubL needle.data hay.data

/-- Python's builtin `min` on two rationals, kept as an executable
if-then-else (definitionally equal to Mathlib's `min` by `min_def`). -/
def pyMin (a b : ℚ) : ℚ := if a ≤ b then a else b

/-!
## `GeminiOCR._calculate_retry_delay`

```python
if is_overload:
    base_delay = self.initial_retry_delay * (2.5 ** attempt)
else:
    base_delay = self.initial_retry_delay * (2 ** attempt)
jitter = random.uniform(0, 0.25 * base_delay)
delay = base_delay + jitter
return min(delay, 60.0)
```
The random draw is modelled by the explicit `jitter` argument.
-/

def calculate_retry_delay (initial_retry_delay : ℚ) (attempt : ℕ)
    (is_overload : Bool) (jitter : ℚ) : ℚ :=
  let base_delay : ℚ :=
    if is_overload then initial_retry_delay * (5 / 2 : ℚ) ^ attempt
    else initial_retry_delay * (2 : ℚ) ^ attempt
  pyMin (base_delay + jitter) 60

/-!
## `GeminiOCR._is_overload_error`
-/

def overload_keywords : List String :=
  ["503", "overloaded", "unavailable", "resource exhausted",
   "quota exceeded", "rate limit"]

def is_overload_error (errMsg : String) : Bool :=
  overload_keywords.any (fun k => hasSubstring k (pyLower errMsg))

/-!
## `GeminiOCR.estimate_confidence_from_json`

The three `re.search` pattern families.  A pattern is a list of character
classes with repetition bounds; `re.search` succeeds iff some start position
admits some choice of repetition counts.  The regex class `\d` is modelled by
ASCII and Thai decimal digits (the digits that can occur in the engine's
plate strings).
-/

def thaiLetter (c : Char) : Bool := 0xE01 ≤ c.toNat && c.toNat ≤ 0xE2E

def latinUpper (c : Char) : Bool := 65 ≤ c.toNat && c.toNat ≤ 90

def sepChar (c : Char) : Bool := pyIsWs c || c = '-'

def digitChar (c : Char) : Bool :=
  (48 ≤ c.toNat && c.toNat ≤ 57) || (0xE50 ≤ c.toNat && c.toNat ≤ 0xE59)

/-- One matching alternative: take `k` characters of the class, `lo ≤ k ≤ hi`. -/
def segsMatchAt : List ((Char → Bool) × Nat × Nat) → List Char → Bool
  | [], _ => true
  | (pc, lo, hi) :: rest, cs =>
      (List.range (hi + 1)).any fun k =>
        decide (lo ≤ k) && decide (k ≤ cs.length) &&
        (cs.take k).all pc && segsMatchAt rest (cs.drop k)

def segsSearch (segs : List ((Char → Bool) × Nat × Nat)) : List Char → Bool
  | [] => segsMatchAt segs []
  | c :: cs => segsMatchAt segs (c :: cs) || segsSearch segs cs

/-- Python `re.search(pattern, s)` as a Boolean, for a segment pattern. -/
def re_search (segs : List ((Char → Bool) × Nat × Nat)) (s : String) : Bool :=
  segsSearch segs s.data

/-- Pattern `r'[ก-ฮ]{1,3}[\s\-]?\d{3,4}'`. -/
def thai_pattern : List ((Char → Bool) × Nat × Nat) :=
  [(thaiLetter, 1, 3), (sepChar, 0, 1), (digitChar, 3, 4)]

/-- Pattern `r'[A-Z]{2,3}[\s\-]?\d{3,4}'`. -/
def english_pattern : List ((Char → Bool) × Nat × Nat) :=
  [(latinUpper, 2, 3), (sepChar, 0, 1), (digitChar, 3, 4)]

/-- Pattern `r'\d[ก-ฮ]{2}[\s\-]?\d{3,4}'`. -/
def new_format_pattern : List ((Char → Bool) × Nat × Nat) :=
  [(digitChar, 1, 1), (thaiLetter, 2, 2), (sepChar, 0, 1), (digitChar, 3, 4)]

/-- The normalized `{license_plate_number, province}` pair produced by the
response parser. -/
structure ParsedFields where
  license_plate_number : String
  province : String
deriving DecidableEq

def estimate_confidence_from_json (parsed : ParsedFields) (raw_text : String) : ℚ :=
  let license_plate := parsed.license_plate_number
  let province := parsed.province
  if license_plate = "" ∨ hasSubstring "UNREADABLE" (pyUpper license_plate) = true then 0
  else if license_plate.length < 3 then 3 / 10
  else
    let confidence : ℚ :=
      if re_search thai_pattern license_plate || re_search english_pattern license_plate
          || re_search new_format_pattern license_plate then 8 / 10
      else 1 / 2
    if province ≠ "" ∧ province ≠ "UNREADABLE" ∧ 2 < province.length then
      pyMin (confidence + 3 / 20) 1
    else confidence

/-!
## A model of Python `json.loads`

Python decodes JSON into `None / bool / int / float / str / list / dict`.
Numbers keep their lexeme (enough to tell `int` from `float`); `\uXXXX`
escapes decode to the code point without combining surrogate pairs; duplicate
object keys are kept in order and a lookup takes the last one, matching
`dict` construction.
-/

inductive Json where
  | null
  | bool (b : Bool)
  | num (lexeme : String)
  | str (s : String)
  | arr (elems : List Json)
  | obj (members : List (String × Json))

/-- JSON inter-token whitespace (Python `json` accepts exactly these). -/
def jsonWsChar (c : Char) : Bool := c = ' ' || c = '\t' || c = '\n' || c = '\r'

def jsonSkipWs (l : List Char) : List Char := l.dropWhile jsonWsChar

def hexVal (c : Char) : Option Nat :=
  if 48 ≤ c.toNat ∧ c.toNat ≤ 57 then some (c.toNat - 48)
  else if 97 ≤ c.toNat ∧ c.toNat ≤ 102 then some (c.toNat - 87)
  else if 65 ≤ c.toNat ∧ c.toNat ≤ 70 then some (c.toNat - 55)
  else none

/-- Decode a JSON string body (after the opening quote): returns the decoded
characters and the input after the closing quote.  Unescaped control
characters are rejected, as in Python's strict mode. -/
def parseStringBody : Nat → List Char → Option (List Char × List Char)
  | 0, _ => none
  | _ + 1, [] => none
  | fuel + 1, c :: cs =>
    if c = dquote then some ([], cs)
    else if c = '\\' then
      match cs with
      | [] => none
      | e :: cs2 =>
        if e = dquote then (parseStringBody fuel cs2).map fun p => (dquote :: p.1, p.2)
        else if e = '\\' then (parseStringBody fuel cs2).map fun p => ('\\' :: p.1, p.2)
        else if e = '/' then (parseStringBody fuel cs2).map fun p => ('/' :: p.1, p.2)
        else if e = 'b' then (parseStringBody fuel cs2).map fun p => (Char.ofNat 8 :: p.1, p.2)
        else if e = 'f' then (parseStringBody fuel cs2).map fun p => (Char.ofNat 12 :: p.1, p.2)
        else if e = 'n' then (parseStringBody fuel cs2).map fun p => ('\n' :: p.1, p.2)
        else if e = 'r' then (parseStringBody fuel cs2).map fun p => ('\r' :: p.1, p.2)
        else if e = 't' then (parseStringBody fuel cs2).map fun p => ('\t' :: p.1, p.2)
        else if e = 'u' then
          match cs2 with
          | h1 :: h2 :: h3 :: h4 :: cs3 =>
            match hexVal h1, hexVal h2, hexVal h3, hexVal h4 with
            | some a, some b, some c2, some d =>
              (parseStringBody fuel cs3).map fun p =>
                (Char.ofNat (((a * 16 + b) * 16 + c2) * 16 + d) :: p.1, p.2)
            | _, _, _, _ => none
          | _ => none
        else none
    else if c.toNat < 32 then none
    else (parseStringBody fuel cs).map fun p => (c :: p.1, p.2)

def isDigA (c : Char) : Bool := 48 ≤ c.toNat && c.toNat ≤ 57

/-- Longest match of the JSON number grammar
`-? (0 | [1-9][0-9]*) (\.[0-9]+)? ([eE][+-]?[0-9]+)?` at the head of the
input; returns the lexeme and the rest. -/
def parseNumberL (l : List Char) : Option (List Char × List Char) :=
  let sl : List Char × List Char :=
    match l with
    | c :: r => if c = '-' then ([c], r) else ([], l)
    | [] => ([], l)
  match h : sl.2 with
  | [] => none
  | c :: r =>
    if isDigA c then
      let ir : List Char × List Char :=
        if c = '0' then ([c], r) else (c :: r.takeWhile isDigA, r.dropWhile isDigA)
      let fr : List Char × List Char :=
        match ir.2 with
        | d :: r1 =>
          if d = '.' then
            match r1.takeWhile isDigA with
            | [] => ([], ir.2)
            | ds => (d :: ds, r1.dropWhile isDigA)
          else ([], ir.2)
        | [] => ([], ir.2)
      let er : List Char × List Char :=
        match fr.2 with
        | e :: r2 =>
          if e = 'e' || e = 'E' then
            let sr : List Char × List Char :=
              match r2 with
              | s :: rr => if s = '+' || s = '-' then ([s], rr) else ([], r2)
              | [] => ([], r2)
            match sr.2.takeWhile isDigA with
            | [] => ([], fr.2)
            | ds => (e :: sr.1 ++ ds, sr.2.dropWhile isDigA)
          else ([], fr.2)
        | [] => ([], fr.2)
      some (sl.1 ++ ir.1 ++ fr.1 ++ er.1, er.2)
    else none

/-- Parser state: a value, the members of an object (after at least one is
known to follow), or the elements of an array. -/
inductive PState where
  | value (l : List Char)
  | members (l : List Char) (acc : List (String × Json))
  | elems (l : List Char) (acc : List Json)

def parseStep : Nat → PState → Option (Json × List Char)
  | 0, _ => none
  | fuel + 1, PState.value l =>
    let l1 := jsonSkipWs l
    match l1 with
    | [] => none
    | c :: r =>
      if c = lbrace then
        let r1 := jsonSkipWs r
        match r1 with
        | [] => none
        | d :: r2 =>
          if d = rbrace then some (Json.obj [], r2)
          else parseStep fuel (PState.members r1 [])
      else if c = '[' then
        let r1 := jsonSkipWs r
        match r1 with
        | [] => none
        | d :: r2 =>
          if d = ']' then some (Json.arr [], r2)
          else parseStep fuel (PState.elems r1 [])
      else if c = dquote then
        (parseStringBody (r.length + 1) r).map fun p => (Json.str (String.mk p.1), p.2)
      else if startsWithL ['t', 'r', 'u', 'e'] l1 then some (Json.bool true, l1.drop 4)
      else if startsWithL ['f', 'a', 'l', 's', 'e'] l1 then some (Json.bool false, l1.drop 5)
      else if startsWithL ['n', 'u', 'l', 'l'] l1 then some (Json.null, l1.drop 4)
      else if startsWithL ['N', 'a', 'N'] l1 then some (Json.num "NaN", l1.drop 3)
      else if startsWithL ['I', 'n', 'f', 'i', 'n', 'i', 't', 'y'] l1 then
        some (Json.num "Infinity", l1.drop 8)
      else if startsWithL ['-', 'I', 'n', 'f', 'i', 'n', 'i', 't', 'y'] l1 then
        some (Json.num "-Infinity", l1.drop 9)
      else (parseNumberL l1).map fun p => (Json.num (String.mk p.1), p.2)
  | fuel + 1, PState.members l acc =>
    match l with
    | [] => none
    | c :: r =>
      if c = dquote then
        match parseStringBody (r.length + 1) r with
        | none => none
        | some (kb, r1) =>
          match jsonSkipWs r1 with
          | [] => none
          | d :: r3 =>
            if d = ':' then
              match parseStep fuel (PState.value r3) with
              | none => none
              | some (v, r4) =>
                match jsonSkipWs r4 with
                | [] => none
                | d2 :: r6 =>
                  if d2 = ',' then
                    parseStep fuel (PState.members (jsonSkipWs r6) (acc ++ [(String.mk kb, v)]))
                  else if d2 = rbrace then some (Json.obj (acc ++ [(String.mk kb, v)]), r6)
                  else none
            else none
      else none
  | fuel + 1, PState.elems l acc =>
    match parseStep fuel (PState.value l) with
    | none => none
    | some (v, r) =>
      match jsonSkipWs r with
      | [] => none
      | d :: r2 =>
        if d = ',' then parseStep fuel (PState.elems r2 (acc ++ [v]))
        else if d = ']' then some (Json.arr (acc ++ [v]), r2)
        else none

/-- Model of `json.loads` on a character list: parse one value and require only
whitespace after it.  The fuel `length + 1` suffices because at least one
character is consumed before every recursive `parseStep` call. -/
def jsonLoadsL (l : List Char) : Except Unit Json :=
  match parseStep (l.length + 1) (PState.value l) with
  | some (v, rest) => if (jsonSkipWs rest).isEmpty then Except.ok v else Except.error ()
  | none => Except.error ()

/-!
## `GeminiOCR.parse_json_response` and `GeminiOCR._extract_from_text`
-/

/-- Model of `re.sub(r'^```(?:json)?\s*', '', t)`: the leading fence, the optional
`json` tag, and following whitespace are removed when present. -/
def applyFenceStart (l : List Char) : List Char :=
  if startsWithL [btick, btick, btick] l then
    (if startsWithL ['j', 's', 'o', 'n'] (l.drop 3) then (l.drop 3).drop 4
     else l.drop 3).dropWhile pyIsWs
  else l

/-- Model of `re.sub(r'\s*```$', '', t)`, with `$` taken as end of string: a trailing
fence and the whitespace before it are removed when present. -/
def applyFenceEnd (l : List Char) : List Char :=
  if startsWithL [btick, btick, btick] l.reverse then
    ((l.reverse.drop 3).dropWhile pyIsWs).reverse
  else l

/-- The cleaned text handed to `json.loads`: strip, then remove code-fence
markers when the stripped text starts with a fence. -/
def cleanOf (text : String) : List Char :=
  if startsWithL [btick, btick, btick] (pyStripL text.data) then
    applyFenceEnd (applyFenceStart (pyStripL text.data))
  else pyStripL text.data

/-- Case-insensitive literal match of `key` at the head of the input
(`re.IGNORECASE`); returns the rest on success. -/
def dropCI : List Char → List Char → Option (List Char)
  | [], hay => some hay
  | _ :: _, [] => none
  | n :: ns, h :: hs => if pyLowerChar h = pyLowerChar n then dropCI ns hs else none

/-- The regex class `["\s:]` between the key and the captured value. -/
def keyGapChar (c : Char) : Bool := c = dquote || pyIsWs c || c = ':'

/-- The regex class `[^,\n"]` of the captured value. -/
def valCaptureChar (c : Char) : Bool := !(c = ',' || c = '\n' || c = dquote)

/-- Backtracking of `["\s:]+([^,\n"]+)`: try the longest gap first, giving
characters back until a non-empty capture can start. -/
def tryGapLen (rest : List Char) : Nat → Option (List Char)
  | 0 => none
  | k + 1 =>
    match rest.drop (k + 1) with
    | c :: _ =>
      if valCaptureChar c then some ((rest.drop (k + 1)).takeWhile valCaptureChar)
      else tryGapLen rest k
    | [] => tryGapLen rest k

/-- Match `key["\s:]+([^,\n"]+)` at the head of the input, returning the
capture group. -/
def matchKVAt (key cs : List Char) : Option (List Char) :=
  match dropCI key cs with
  | none => none
  | some rest => tryGapLen rest (rest.takeWhile keyGapChar).length

/-- Model of `re.search`: leftmost start position at which the key-value pattern
matches. -/
def searchKV (key : List Char) : List Char → Option (List Char)
  | [] => matchKVAt key []
  | c :: cs =>
    match matchKVAt key (c :: cs) with
    | some g => some g
    | none => searchKV key cs

def lpKey : List Char := "license_plate_number".data

def pvKey : List Char := "province".data

def extract_from_text (text : String) : ParsedFields :=
  let license_plate :=
    match searchKV lpKey text.data with
    | some g => pyUpper (String.mk (stripCharsL (fun c => c = dquote) (pyStripL g)))
    | none => ""
  let province :=
    match searchKV pvKey text.data with
    | some g => String.mk (stripCharsL (fun c => c = dquote) (pyStripL g))
    | none => ""
  ⟨license_plate, province⟩

/-- Python type name of a decoded JSON value, for `AttributeError` texts. -/
def pyTypeName : Json → String
  | Json.null => "NoneType"
  | Json.bool _ => "bool"
  | Json.str _ => "str"
  | Json.arr _ => "list"
  | Json.obj _ => "dict"
  | Json.num lex =>
    if lex.data.any (fun c => c = '.' || c = 'e' || c = 'E') || lex = "NaN"
        || lex = "Infinity" || lex = "-Infinity" then "float"
    else "int"

/-- The text of `AttributeError: 'ty' object has no attribute 'attr'`. -/
def attrMsg (tyName attrName : String) : String :=
  String.mk ([sq] ++ tyName.data ++ [sq] ++ " object has no attribute ".data
    ++ [sq] ++ attrName.data ++ [sq])

/-- Model of `dict.get` on the decoded members: the last binding of a key wins. -/
def lookupLast (kvs : List (String × Json)) (k : String) : Option Json :=
  kvs.foldl (fun acc kv => if kv.1 = k then some kv.2 else acc) none

/-- Model of `GeminiOCR.parse_json_response`.  `Except.error` models an uncaught
exception: only `json.JSONDecodeError` is caught (degrading to
`_extract_from_text`), so `.get` on a non-dict value or `.strip` on a
non-str value raises `AttributeError` out of the function. -/
def parse_json_response (text : String) : Except String ParsedFields :=
  if text = "" then Except.ok ⟨"", ""⟩
  else
    match jsonLoadsL (cleanOf text) with
    | Except.error _ => Except.ok (extract_from_text text)
    | Except.ok v =>
      match v with
      | Json.obj kvs =>
        match (lookupLast kvs "license_plate_number").getD (Json.str "") with
        | Json.str s =>
          match (lookupLast kvs "province").getD (Json.str "") with
          | Json.str pv => Except.ok ⟨pyUpper (pyStrip s), pyStrip pv⟩
          | w => Except.error (attrMsg (pyTypeName w) "strip")
        | w => Except.error (attrMsg (pyTypeName w) "strip")
      | w => Except.error (attrMsg (pyTypeName w) "get")

/-- Wrap a text in the code-fence markers the model emits:
three backticks, a `json` tag, a newline, the text, a newline, three
backticks. -/
def fenceL (l : List Char) : List Char :=
  btick :: btick :: btick :: 'j' :: 's' :: 'o' :: 'n' :: '\n'
    :: (l ++ ['\n', btick, btick, btick])

def fenceWrap (t : String) : String := String.mk (fenceL t.data)

/-!
## `GeminiOCR.read_text` and the retry loop

The remote `generate_content` call of attempt `i` is abstracted by
`out i : ApiOutcome`: either an exception (with its `str(e)` text) or a
response text.  `random.uniform` draws are abstracted by the stream `jit`.
`run_attempts` returns the result record together with the list of backoff
waits passed to `time.sleep`, in order.
-/

structure OcrConfig where
  model_name : String
  max_retries : Nat
  initial_retry_delay : ℚ
  use_image_url : Bool

inductive ApiOutcome where
  | failure (msg : String)
  | success (rawText : String)

/-- The result dict of `read_text`.  Optional fields model keys that are
present only on some paths; `processing_time` (wall clock) is omitted. -/
structure OcrResult where
  license_plate_number : String
  province : String
  text : String
  confidence : ℚ
  raw_response : Option String
  model : String
  attempts : Nat
  mode : Option String
  error : Option String
  image_path : Option String
  fallback : Option Bool

/-- Python `str(last_error)` where `last_error` may still be `None`. -/
def strOfLastError : Option String → String
  | none => "None"
  | some m => m

/-- The dict built after the retry loop exhausts
(`gemini.py` lines 282-291 and 354-364). -/
def exhausted_result (cfg : OcrConfig) (mode64 : Bool) (lastErr : Option String) : OcrResult where
  license_plate_number := ""
  province := ""
  text := ""
  confidence := 0
  raw_response := none
  model := cfg.model_name
  attempts := cfg.max_retries
  mode := if mode64 then some "base64" else none
  error := some (strOfLastError lastErr)
  image_path := none
  fallback := none

/-- The dict built on a successful attempt
(`gemini.py` lines 247-256 and 320-330). -/
def success_result (cfg : OcrConfig) (mode64 : Bool) (pr : ParsedFields) (raw : String)
    (attempts : Nat) : OcrResult where
  license_plate_number := pr.license_plate_number
  province := pr.province
  text := pr.license_plate_number
  confidence := estimate_confidence_from_json pr raw
  raw_response := some raw
  model := cfg.model_name
  attempts := attempts
  mode := if mode64 then some "base64" else none
  error := none
  image_path := none
  fallback := none

/-- The retry loop shared by `_call_gemini_with_url` and
`_call_gemini_with_base64`: `idx` is the 0-indexed attempt counter, `fuel`
the remaining attempts.  An exception raised while handling a successful
response (`parse_json_response` can raise, see C3) is caught by the loop's
`except Exception` and retried like an API failure.  A wait is computed
(and logged in the second component) only when attempts remain. -/
def run_attempts (cfg : OcrConfig) (out : Nat → ApiOutcome) (jit : Nat → ℚ)
    (mode64 : Bool) : Nat → Nat → Option String → OcrResult × List ℚ
  | _, 0, lastErr => (exhausted_result cfg mode64 lastErr, [])
  | idx, fuel + 1, _ =>
    match out idx with
    | ApiOutcome.failure msg =>
      (  (run_attempts cfg out jit mode64 (idx + 1) fuel (some msg)).1,
        if 0 < fuel then
          calculate_retry_delay cfg.initial_retry_delay idx (is_overload_error msg) (jit idx)
            :: (run_attempts cfg out jit mode64 (idx + 1) fuel (some msg)).2
        else (run_attempts cfg out jit mode64 (idx + 1) fuel (some msg)).2)
    | ApiOutcome.success raw =>
      match parse_json_response raw with
      | Except.error emsg =>
        (  (run_attempts cfg out jit mode64 (idx + 1) fuel (some emsg)).1,
          if 0 < fuel then
            calculate_retry_delay cfg.initial_retry_delay idx (is_overload_error emsg) (jit idx)
              :: (run_attempts cfg out jit mode64 (idx + 1) fuel (some emsg)).2
          else (run_attempts cfg out jit mode64 (idx + 1) fuel (some emsg)).2)
      | Except.ok pr => (success_result cfg mode64 pr raw (idx + 1), [])

def call_gemini_with_url (cfg : OcrConfig) (out : Nat → ApiOutcome) (jit : Nat → ℚ) :
    OcrResult × List ℚ :=
  run_attempts cfg out jit false 0 cfg.max_retries none

def call_gemini_with_base64 (cfg : OcrConfig) (out : Nat → ApiOutcome) (jit : Nat → ℚ) :
    OcrResult × List ℚ :=
  run_attempts cfg out jit true 0 cfg.max_retries none

/-- Model of `GeminiOCR._fallback_to_base64`. -/
def fallback_to_base64 (cfg : OcrConfig) (out : Nat → ApiOutcome) (jit : Nat → ℚ) : OcrResult :=
  { (call_gemini_with_base64 cfg out jit).1 with fallback := some true }

/-- Model of `GeminiOCR.read_text`.  `saveRes` abstracts `save_temp_image` (the path
on success, the exception text if the write raises).  The `try` block around
the url-mode body can only raise from `save_temp_image`: the url-mode retry
loop catches every exception internally and returns a record. -/
def read_text (cfg : OcrConfig) (detection_id : Option Nat) (original_filename : Option String)
    (saveRes : Except String String)
    (urlOut : Nat → ApiOutcome) (urlJit : Nat → ℚ)
    (b64Out : Nat → ApiOutcome) (b64Jit : Nat → ℚ) : OcrResult :=
  if cfg.use_image_url then
    match detection_id, original_filename with
    | some _, some _ =>
      match saveRes with
      | Except.ok temp_path =>
        { (call_gemini_with_url cfg urlOut urlJit).1 with
            image_path := some temp_path, mode := some "url" }
      | Except.error _ => fallback_to_base64 cfg b64Out b64Jit
    | _, _ => fallback_to_base64 cfg b64Out b64Jit
  else (call_gemini_with_base64 cfg b64Out b64Jit).1

/-- The C8 invariant, as a predicate on result records. -/
def ZeroConfInv (r : OcrResult) : Prop :=
  r.confidence = 0 ↔
    (r.license_plate_number = "" ∨ hasSubstring "UNREADABLE" r.license_plate_number = true)

/-!
## Theorems
-/

theorem startsWithL_iff (n : List Char) :
    ∀ l : List Char, startsWithL n l = true ↔ ∃ t, l = n ++ t := by
  induction n with
  | nil =>
      intro l
      simp [startsWithL]
  | cons a as ih =>
      intro l
      cases l with
      | nil => simp [startsWithL]
      | cons b bs =>
          simp only [startsWithL, Bool.and_eq_true, decide_eq_true_eq, ih bs]
          constructor
          · rintro ⟨rfl, t, rfl⟩
            exact ⟨t, rfl⟩
          · rintro ⟨t, h⟩
            injection h with h1 h2
            exact ⟨h1.symm, t, h2⟩

theorem hasSubL_iff (n : List Char) :
    ∀ l : List Char, hasSubL n l = true ↔ ∃ s t, l = s ++ n ++ t := by
  intro l
  induction l with
  | nil =>
      simp only [hasSubL, startsWithL_iff]
      constructor
      · rintro ⟨t, h⟩
        exact ⟨[], t, by simpa using h⟩
      · rintro ⟨s, t, h⟩
        rcases List.append_eq_nil.mp (List.append_eq_nil.mp h.symm).1 with ⟨_, h2⟩
        exact ⟨t, by simp_all⟩
  | cons c cs ih =>
      simp only [hasSubL, Bool.or_eq_true, startsWithL_iff, ih]
      constructor
      · rintro (⟨t, h⟩ | ⟨s, t, h⟩)
        · exact ⟨[], t, by simpa using h⟩
        · exact ⟨c :: s, t, by simp [h]⟩
      · rintro ⟨s, t, h⟩
        cases s with
        | nil => exact Or.inl ⟨t, by simpa using h⟩
        | cons x xs =>
            injection h with h1 h2
            exact Or.inr ⟨xs, t, h2⟩

theorem pyMin_eq_min (a b : ℚ) : pyMin a b = min a b := by
  rw [min_def, pyMin]

/-!
## Claim C4 — retry delay formula
-/

/-- C4 part 1 (the formula): for every attempt index `n ≥ 0` and overload
flag, the computed retry delay equals
`min(initial_retry_delay * base^n + j, 60.0)` with `base = 2.5` for overload
failures and `base = 2.0` otherwise, for any jitter `j` drawn from
`[0, 0.25 * initial_retry_delay * base^n]`. -/
theorem retry_delay_formula_eq (initial_retry_delay : ℚ) (n : ℕ) (is_overload : Bool)
    (j : ℚ) (hj0 : 0 ≤ j)
    (hj1 : j ≤ 1 / 4 * (initial_retry_delay *
      (if is_overload then (5 / 2 : ℚ) else 2) ^ n)) :
    calculate_retry_delay initial_retry_delay n is_overload j =
      min (initial_retry_delay * (if is_overload then (5 / 2 : ℚ) else 2) ^ n + j) 60 := by
  cases is_overload <;> simp [calculate_retry_delay, pyMin_eq_min]

/-!
## Claim C5 — monotonicity and clamp of the backoff delay
-/

/-- C5: for a fixed overload classification and fixed positive
`initial_retry_delay`, every delay obtainable at attempt `n + 1` (over all
valid jitter draws) is at least every delay obtainable at attempt `n`, and
every delay is at most `60` seconds. -/
theorem retry_delay_monotone (initial_retry_delay : ℚ)
    (hpos : 0 < initial_retry_delay) (is_overload : Bool) (n : ℕ) (j₁ j₂ : ℚ)
    (h₁0 : 0 ≤ j₁)
    (h₁1 : j₁ ≤ 1 / 4 * (initial_retry_delay *
      (if is_overload then (5 / 2 : ℚ) else 2) ^ n))
    (h₂0 : 0 ≤ j₂)
    (h₂1 : j₂ ≤ 1 / 4 * (initial_retry_delay *
      (if is_overload then (5 / 2 : ℚ) else 2) ^ (n + 1))) :
    calculate_retry_delay initial_retry_delay n is_overload j₁ ≤
      calculate_retry_delay initial_retry_delay (n + 1) is_overload j₂ ∧
    calculate_retry_delay initial_retry_delay n is_overload j₁ ≤ 60 := by
  simp only [calculate_retry_delay, pyMin_eq_min]
  refine ⟨?_, min_le_right _ _⟩
  cases is_overload <;>
    · simp only [if_true, if_false, Bool.false_eq_true] at *
      refine min_le_min ?_ (le_refl _)
      nlinarith [pow_pos (show (0:ℚ) < 2 by norm_num) n,
        pow_pos (show (0:ℚ) < 5 / 2 by norm_num) n, pow_succ (2 : ℚ) n,
        pow_succ (5 / 2 : ℚ) n]

/-- Witness for C5 at `initial_retry_delay = 3`, `n = 0`, standard backoff,
zero jitter on both attempts. -/
theorem retry_delay_monotone_witness :
    (0 : ℚ) < 3 ∧ (0 : ℚ) ≤ 0 ∧
    (0 : ℚ) ≤ 1 / 4 * (3 * (if false then (5 / 2 : ℚ) else 2) ^ 0) ∧
    (0 : ℚ) ≤ 1 / 4 * (3 * (if false then (5 / 2 : ℚ) else 2) ^ (0 + 1)) ∧
    (calculate_retry_delay 3 0 false 0 ≤ calculate_retry_delay 3 (0 + 1) false 0 ∧
      calculate_retry_delay 3 0 false 0 ≤ 60) :=
  ⟨by norm_num, le_refl 0, by norm_num, by norm_num,
    retry_delay_monotone 3 (by norm_num) false 0 0 0 (le_refl 0) (by norm_num)
      (le_refl 0) (by norm_num)⟩

/-!
## Claim C6 — overload classification
-/

/-- C6: a failure is classified as an overload failure iff the lower-cased
textual description contains one of the six keyword substrings; every other
failure is standard. -/
theorem overload_classification (msg : String) :
    is_overload_error msg = true ↔
      (∃ s t, (pyLower msg).data = s ++ "503".data ++ t) ∨
      (∃ s t, (pyLower msg).data = s ++ "overloaded".data ++ t) ∨
      (∃ s t, (pyLower msg).data = s ++ "unavailable".data ++ t) ∨
      (∃ s t, (pyLower msg).data = s ++ "resource exhausted".data ++ t) ∨
      (∃ s t, (pyLower msg).data = s ++ "quota exceeded".data ++ t) ∨
      (∃ s t, (pyLower msg).data = s ++ "rate limit".data ++ t) := by
  simp [is_overload_error, overload_keywords, hasSubstring, hasSubL_iff]

/-!
## Claim C7 — confidence estimation rules
-/

/-- C7: `estimate_confidence_from_json` applies, in order: empty or
`UNREADABLE`-containing plate (case-insensitively) gives `0.0`; plate shorter
than 3 characters gives `0.3`; otherwise a match of any of the three pattern
families gives base `0.8` and no match gives base `0.5`; a non-empty,
non-`UNREADABLE` province longer than 2 characters adds `0.15`, capped at
`1.0`.  The spec's example `("กข 1234", "กรุงเทพมหานคร")` yields `0.95`. -/
theorem confidence_rules :
    (∀ p v raw, estimate_confidence_from_json ⟨p, v⟩ raw =
      if p = "" ∨ hasSubstring "UNREADABLE" (pyUpper p) = true then 0
      else if p.length < 3 then 3 / 10
      else if v ≠ "" ∧ v ≠ "UNREADABLE" ∧ 2 < v.length then
        min ((if re_search thai_pattern p || re_search english_pattern p
            || re_search new_format_pattern p then (8 : ℚ) / 10 else 5 / 10) + 15 / 100) 1
      else (if re_search thai_pattern p || re_search english_pattern p
            || re_search new_format_pattern p then (8 : ℚ) / 10 else 5 / 10)) ∧
    estimate_confidence_from_json ⟨"กข 1234", "กรุงเทพมหานคร"⟩ "" = 19 / 20 := by
  constructor
  · intro p v raw
    simp only [estimate_confidence_from_json, pyMin_eq_min]
    split_ifs <;> norm_num
  · have hne : ¬ (("กข 1234" : String) = "" ∨
        hasSubstring "UNREADABLE" (pyUpper "กข 1234") = true) := by decide
    have hlen : ¬ (("กข 1234" : String).length < 3) := by decide
    have hsea : (re_search thai_pattern "กข 1234" ||
        re_search english_pattern "กข 1234" ||
        re_search new_format_pattern "กข 1234") = true := by decide
    have hprov : ("กรุงเทพมหานคร" : String) ≠ "" ∧
        ("กรุงเทพมหานคร" : String) ≠ "UNREADABLE" ∧
        2 < ("กรุงเทพมหานคร" : String).length := by decide
    simp only [estimate_confidence_from_json, if_neg hne, if_neg hlen, hsea,
      if_true, if_pos hprov, pyMin_eq_min]
    norm_num

/-!
## Claims C3 and C9 — response parsing
-/

/-- C3 counterexample: on the input `"42"` the text decodes to the integer
`42`, and `result.get(...)` then raises
`AttributeError: 'int' object has no attribute 'get'` out of
`parse_json_response` — the function does not never-raise. -/
theorem parse_json_response_raises_cex :
    parse_json_response "42" = Except.error (attrMsg (pyTypeName (Json.num "42")) "get") :=
  rfl

/-- C3 (amended): whenever strict JSON decoding of the cleaned text fails,
`parse_json_response` returns normally with the text-extraction fallback;
the fallback yields an empty string for each missing key match and never
raises; and an empty plate yields zero confidence.  (When the text decodes
to a non-object value, or to an object with a non-string value at one of the
keys, the function instead raises `AttributeError`.) -/
theorem parse_fallback_no_raise :
    (∀ t, jsonLoadsL (cleanOf t) = Except.error () →
      parse_json_response t = Except.ok (extract_from_text t)) ∧
    (∀ t, searchKV lpKey t.data = none → (extract_from_text t).license_plate_number = "") ∧
    (∀ t, searchKV pvKey t.data = none → (extract_from_text t).province = "") ∧
    (∀ v raw, estimate_confidence_from_json ⟨"", v⟩ raw = 0) := by
  refine ⟨?_, ?_, ?_, ?_⟩
  · intro t h
    by_cases ht : t = ""
    · subst ht; rfl
    · unfold parse_json_response
      rw [if_neg ht, h]
  · intro t h
    simp only [extract_from_text]
    rw [h]
  · intro t h
    simp only [extract_from_text]
    rw [h]
  · intro v raw
    simp [estimate_confidence_from_json]

/-- Witness for the amended C3: a strict-parse failure input and a no-match
input, evaluated concretely. -/
theorem parse_fallback_no_raise_witness :
    jsonLoadsL (cleanOf "notjson") = Except.error () ∧
    parse_json_response "notjson" = Except.ok (extract_from_text "notjson") ∧
    searchKV lpKey ("zz" : String).data = none ∧
    (extract_from_text "zz").license_plate_number = "" ∧
    searchKV pvKey ("zz" : String).data = none ∧
    (extract_from_text "zz").province = "" ∧
    estimate_confidence_from_json ⟨"", "x"⟩ "y" = 0 :=
  ⟨rfl, parse_fallback_no_raise.1 "notjson" rfl, rfl,
    parse_fallback_no_raise.2.1 "zz" rfl, rfl,
    parse_fallback_no_raise.2.2.1 "zz" rfl,
    parse_fallback_no_raise.2.2.2 "x" "y"⟩

theorem dropWhile_eq_self_of_head {p : Char → Bool} {l : List Char} {a : Char}
    (ha : l.head? = some a) (hp : p a = false) : l.dropWhile p = l := by
  cases l with
  | nil => rfl
  | cons x xs =>
      have hx : x = a := by simpa using ha
      subst hx
      simp [List.dropWhile_cons, hp]

theorem pyStripL_eq_self {l : List Char} {a b : Char}
    (ha : l.head? = some a) (hpa : pyIsWs a = false)
    (hb : l.getLast? = some b) (hpb : pyIsWs b = false) : pyStripL l = l := by
  unfold pyStripL
  rw [dropWhile_eq_self_of_head ha hpa,
    dropWhile_eq_self_of_head (by rw [List.head?_reverse]; exact hb) hpb,
    List.reverse_reverse]

theorem cleanOf_eq_self {t : String} {ts : List Char}
    (h4 : t.data = lbrace :: ts) (h5 : t.data.getLast? = some rbrace) :
    cleanOf t = t.data := by
  unfold cleanOf
  have hstrip : pyStripL t.data = t.data :=
    pyStripL_eq_self (by rw [h4]; rfl) (by decide) h5 (by decide)
  rw [hstrip, h4]
  have hsw : startsWithL [btick, btick, btick] (lbrace :: ts) = false := rfl
  rw [if_neg (by intro hc; rw [hsw] at hc; exact Bool.noConfusion hc)]

theorem cleanOf_fenceWrap {t : String} {ts : List Char}
    (h4 : t.data = lbrace :: ts) (h5 : t.data.getLast? = some rbrace) :
    cleanOf (fenceWrap t) = t.data := by
  have hlast : (fenceL t.data).getLast? = some btick := by
    show ((btick :: btick :: btick :: 'j' :: 's' :: 'o' :: 'n' :: '\n' :: [])
      ++ (t.data ++ ['\n', btick, btick, btick])).getLast? = some btick
    rw [List.getLast?_append, List.getLast?_append]
    rfl
  have hstrip : pyStripL (fenceL t.data) = fenceL t.data :=
    pyStripL_eq_self (a := btick) (b := btick) rfl (by decide) hlast (by decide)
  unfold cleanOf
  have hdata : (fenceWrap t).data = fenceL t.data := rfl
  rw [hdata, hstrip]
  rw [if_pos (show startsWithL [btick, btick, btick] (fenceL t.data) = true from rfl)]
  rw [h4]
  rw [show applyFenceStart (fenceL (lbrace :: ts)) =
    (lbrace :: ts) ++ ['\n', btick, btick, btick] from rfl]
  unfold applyFenceEnd
  rw [List.reverse_append]
  rw [show (['\n', btick, btick, btick] : List Char).reverse =
    [btick, btick, btick, '\n'] from rfl]
  rw [if_pos (show startsWithL [btick, btick, btick]
    (([btick, btick, btick, '\n'] : List Char) ++ (lbrace :: ts).reverse) = true from rfl)]
  rw [show (([btick, btick, btick, '\n'] : List Char) ++ (lbrace :: ts).reverse).drop 3 =
    '\n' :: (lbrace :: ts).reverse from rfl]
  have hdw : (lbrace :: ts).reverse.dropWhile pyIsWs = (lbrace :: ts).reverse := by
    refine dropWhile_eq_self_of_head (a := rbrace) ?_ (by decide)
    rw [List.head?_reverse, ← h4]
    exact h5
  rw [List.dropWhile_cons]
  rw [if_pos (show pyIsWs '\n' = true from rfl)]
  rw [hdw, List.reverse_reverse]

/-- C9 counterexample: the code also whitespace-trims the plate before
uppercasing, so a plate value `" ab "` comes back as `"AB"`, not as the
uppercased original `" AB "` the claim describes. -/
theorem parse_plate_strip_cex :
    parse_json_response "\x7b\"license_plate_number\": \" ab \", \"province\": \"x\"\x7d" =
      Except.ok ⟨"AB", "x"⟩ ∧
    pyUpper " ab " = " AB " ∧ ("AB" : String) ≠ " AB " :=
  ⟨rfl, rfl, by decide⟩

/-- C9 (amended): on a well-formed JSON object with string values at the two
keys, `parse_json_response` returns exactly that pair with the plate
whitespace-trimmed then uppercased and the province whitespace-trimmed, and
wrapping the same JSON in code-fence markers (triple backticks with a `json`
language tag) yields the identical parsed result. -/
theorem parse_wellformed_json_and_fence (t p v : String) (kvs : List (String × Json))
    {ts : List Char}
    (h4 : t.data = lbrace :: ts) (h5 : t.data.getLast? = some rbrace)
    (h1 : jsonLoadsL (cleanOf t) = Except.ok (Json.obj kvs))
    (h2 : lookupLast kvs "license_plate_number" = some (Json.str p))
    (h3 : lookupLast kvs "province" = some (Json.str v)) :
    parse_json_response t = Except.ok ⟨pyUpper (pyStrip p), pyStrip v⟩ ∧
    parse_json_response (fenceWrap t) = parse_json_response t := by
  have hne : t ≠ "" := by
    intro h
    subst h
    simp at h4
  have hne2 : fenceWrap t ≠ "" := by
    intro h
    simpa [fenceWrap, fenceL] using congrArg String.data h
  have hA : parse_json_response t = Except.ok ⟨pyUpper (pyStrip p), pyStrip v⟩ := by
    unfold parse_json_response
    rw [if_neg hne, h1]
    show (match (lookupLast kvs "license_plate_number").getD (Json.str "") with
      | Json.str s =>
        match (lookupLast kvs "province").getD (Json.str "") with
        | Json.str pv => Except.ok (ParsedFields.mk (pyUpper (pyStrip s)) (pyStrip pv))
        | w => Except.error (attrMsg (pyTypeName w) "strip")
      | w => Except.error (attrMsg (pyTypeName w) "strip")) =
      Except.ok ⟨pyUpper (pyStrip p), pyStrip v⟩
    rw [h2, h3]
    rfl
  refine ⟨hA, ?_⟩
  have hclean : cleanOf (fenceWrap t) = cleanOf t := by
    rw [cleanOf_fenceWrap h4 h5, cleanOf_eq_self h4 h5]
  have hB : parse_json_response (fenceWrap t) =
      Except.ok ⟨pyUpper (pyStrip p), pyStrip v⟩ := by
    unfold parse_json_response
    rw [if_neg hne2, hclean, h1]
    show (match (lookupLast kvs "license_plate_number").getD (Json.str "") with
      | Json.str s =>
        match (lookupLast kvs "province").getD (Json.str "") with
        | Json.str pv => Except.ok (ParsedFields.mk (pyUpper (pyStrip s)) (pyStrip pv))
        | w => Except.error (attrMsg (pyTypeName w) "strip")
      | w => Except.error (attrMsg (pyTypeName w) "strip")) =
      Except.ok ⟨pyUpper (pyStrip p), pyStrip v⟩
    rw [h2, h3]
    rfl
  rw [hA, hB]

/-- Witness for the amended C9 at a concrete JSON object. -/
theorem parse_wellformed_json_and_fence_witness :
    parse_json_response "\x7b\"license_plate_number\": \"ab 1234\", \"province\": \" xx \"\x7d" =
      Except.ok ⟨pyUpper (pyStrip "ab 1234"), pyStrip " xx "⟩ ∧
    parse_json_response
        (fenceWrap "\x7b\"license_plate_number\": \"ab 1234\", \"province\": \" xx \"\x7d") =
      parse_json_response "\x7b\"license_plate_number\": \"ab 1234\", \"province\": \" xx \"\x7d" :=
  parse_wellformed_json_and_fence
    "\x7b\"license_plate_number\": \"ab 1234\", \"province\": \" xx \"\x7d"
    "ab 1234" " xx "
    [("license_plate_number", Json.str "ab 1234"), ("province", Json.str " xx ")]
    rfl rfl rfl rfl rfl

theorem run_attempts_all_fail (cfg : OcrConfig) (out : Nat → ApiOutcome) (jit : Nat → ℚ)
    (mode64 : Bool) (msgs : Nat → String) :
    ∀ fuel idx lastErr,
      (∀ i, idx ≤ i → i < idx + fuel → out i = ApiOutcome.failure (msgs i)) →
      run_attempts cfg out jit mode64 idx fuel lastErr =
        (exhausted_result cfg mode64
          (match fuel with | 0 => lastErr | _ + 1 => some (msgs (idx + fuel - 1))),
         (List.range' idx (fuel - 1)).map fun i =>
           calculate_retry_delay cfg.initial_retry_delay i (is_overload_error (msgs i)) (jit i)) := by
  intro fuel
  induction fuel with
  | zero =>
      intro idx lastErr h
      rfl
  | succ m ih =>
      intro idx lastErr h
      have h0 : out idx = ApiOutcome.failure (msgs idx) := h idx (le_refl _) (by omega)
      have hrec := ih (idx + 1) (some (msgs idx)) (fun i h1 h2 => h i (by omega) (by omega))
      simp only [run_attempts, h0, hrec]
      cases m with
      | zero => simp
      | succ k =>
          simp only [Nat.succ_sub_one, Nat.lt_irrefl, Nat.zero_lt_succ, if_pos, if_true,
            Prod.mk.injEq]
          refine ⟨?_, ?_⟩
          · have : idx + 1 + (k + 1) - 1 = idx + (k + 1 + 1) - 1 := by omega
            rw [this]
          · rw [show List.range' idx (k + 1) = idx :: List.range' (idx + 1) k from rfl]
            simp

theorem run_attempts_mode64 (cfg : OcrConfig) (out : Nat → ApiOutcome) (jit : Nat → ℚ) :
    ∀ fuel idx lastErr,
      (run_attempts cfg out jit true idx fuel lastErr).1.mode = some "base64" := by
  intro fuel
  induction fuel with
  | zero => intro idx lastErr; rfl
  | succ m ih =>
      intro idx lastErr
      cases hout : out idx with
      | failure msg => simp only [run_attempts, hout]; exact ih (idx + 1) (some msg)
      | success raw =>
          cases hp : parse_json_response raw with
          | error emsg => simp only [run_attempts, hout, hp]; exact ih (idx + 1) (some emsg)
          | ok pr => simp only [run_attempts, hout, hp]; rfl

/-!
## Claim C4 — delay formula and 0-indexed retry schedule
-/

/-- C4: the computed retry delay follows the clamped exponential-with-jitter
formula (base `2.5` on overload, `2.0` otherwise), and in a url-mode call in
which every attempt fails, the loop's sleep schedule is exactly
`calculate_retry_delay` at the 0-indexed attempt counters `0, 1, ...,
max_retries - 2` — the first retry uses attempt `0`. -/
theorem retry_delay_formula :
    (∀ (initial_retry_delay : ℚ) (n : ℕ) (is_overload : Bool) (j : ℚ),
      0 ≤ j →
      j ≤ 1 / 4 * (initial_retry_delay * (if is_overload then (5 / 2 : ℚ) else 2) ^ n) →
      calculate_retry_delay initial_retry_delay n is_overload j =
        min (initial_retry_delay * (if is_overload then (5 / 2 : ℚ) else 2) ^ n + j) 60) ∧
    (∀ (cfg : OcrConfig) (out : Nat → ApiOutcome) (jit : Nat → ℚ) (msgs : Nat → String),
      (∀ i, i < cfg.max_retries → out i = ApiOutcome.failure (msgs i)) →
      (call_gemini_with_url cfg out jit).2 =
        (List.range (cfg.max_retries - 1)).map fun i =>
          calculate_retry_delay cfg.initial_retry_delay i (is_overload_error (msgs i)) (jit i)) := by
  constructor
  · exact retry_delay_formula_eq
  · intro cfg out jit msgs h
    have heq := run_attempts_all_fail cfg out jit false msgs cfg.max_retries 0 none
      (fun i h1 h2 => h i (by omega))
    rw [call_gemini_with_url, heq, List.range_eq_range']

/-- Witness for C4: formula at `initial = 3`, `n = 0`, zero jitter; schedule
of a 2-attempt url-mode call whose attempts all fail. -/
theorem retry_delay_formula_witness :
    ((0 : ℚ) ≤ 0 ∧
      calculate_retry_delay 3 0 false 0 =
        min (3 * (if false then (5 / 2 : ℚ) else 2) ^ 0 + 0) 60) ∧
    (call_gemini_with_url ⟨"m", 2, 3, true⟩ (fun _ => ApiOutcome.failure "boom")
        (fun _ => 0)).2 =
      (List.range (2 - 1)).map fun i =>
        calculate_retry_delay 3 i (is_overload_error "boom") 0 :=
  ⟨⟨le_refl 0, retry_delay_formula.1 3 0 false 0 (le_refl 0) (by norm_num)⟩,
    retry_delay_formula.2 ⟨"m", 2, 3, true⟩ (fun _ => ApiOutcome.failure "boom")
      (fun _ => 0) (fun _ => "boom") (fun _ _ => rfl)⟩

/-!
## Claim C8 — zero confidence iff empty or unreadable plate
-/

theorem toNat_ofNat_upper (m : Nat) (h1 : 65 ≤ m) (h2 : m ≤ 90) :
    (Char.ofNat m).toNat = m := by
  interval_cases m <;> decide

theorem pyUpperChar_of_notLower (c : Char) (h : ¬(97 ≤ c.toNat ∧ c.toNat ≤ 122)) :
    pyUpperChar c = c := by
  unfold pyUpperChar
  rw [if_neg h]

theorem pyUpperChar_idem (c : Char) : pyUpperChar (pyUpperChar c) = pyUpperChar c := by
  by_cases h : 97 ≤ c.toNat ∧ c.toNat ≤ 122
  · have h1 : pyUpperChar c = Char.ofNat (c.toNat - 32) := by
      unfold pyUpperChar
      rw [if_pos h]
    rw [h1]
    refine pyUpperChar_of_notLower _ ?_
    rw [toNat_ofNat_upper (c.toNat - 32) (by omega) (by omega)]
    omega
  · rw [pyUpperChar_of_notLower c h]
    exact pyUpperChar_of_notLower c h

theorem map_pyUpperChar_idem (l : List Char) :
    (l.map pyUpperChar).map pyUpperChar = l.map pyUpperChar := by
  induction l with
  | nil => rfl
  | cons c cs ih => simp only [List.map_cons, pyUpperChar_idem, ih]

theorem pyUpper_idem (s : String) : pyUpper (pyUpper s) = pyUpper s :=
  congrArg String.mk (map_pyUpperChar_idem s.data)

theorem est_zero_iff (pr : ParsedFields) (raw : String) :
    estimate_confidence_from_json pr raw = 0 ↔
      (pr.license_plate_number = "" ∨
        hasSubstring "UNREADABLE" (pyUpper pr.license_plate_number) = true) := by
  simp only [estimate_confidence_from_json, pyMin_eq_min]
  split_ifs with h1
  · simp [h1]
  all_goals exact iff_of_false (by norm_num [min_def]) h1

theorem extract_plate_shape (t : String) :
    (extract_from_text t).license_plate_number = "" ∨
      ∃ s, (extract_from_text t).license_plate_number = pyUpper s := by
  unfold extract_from_text
  cases hs : searchKV lpKey t.data with
  | none =>
      left
      simp [hs]
  | some g =>
      right
      refine ⟨String.mk (stripCharsL (fun c => c = dquote) (pyStripL g)), ?_⟩
      simp [hs]

theorem parse_ok_plate_shape (t : String) (pr : ParsedFields)
    (h : parse_json_response t = Except.ok pr) :
    pr.license_plate_number = "" ∨ ∃ s, pr.license_plate_number = pyUpper s := by
  unfold parse_json_response at h
  split_ifs at h with ht
  · injection h with h'
    rw [← h']
    exact Or.inl rfl
  · split at h
    · injection h with h'
      rw [← h']
      exact extract_plate_shape t
    · split at h
      · split at h
        · split at h
          · injection h with h'
            rw [← h']
            exact Or.inr ⟨_, rfl⟩
          · exact Except.noConfusion h
        · exact Except.noConfusion h
      · exact Except.noConfusion h

theorem zeroConfInv_exhausted (cfg : OcrConfig) (mode64 : Bool) (le : Option String) :
    ZeroConfInv (exhausted_result cfg mode64 le) := by
  simp [ZeroConfInv, exhausted_result]

theorem zeroConfInv_success (cfg : OcrConfig) (mode64 : Bool) (pr : ParsedFields)
    (raw : String) (k : Nat) (h : parse_json_response raw = Except.ok pr) :
    ZeroConfInv (success_result cfg mode64 pr raw k) := by
  have hsh := parse_ok_plate_shape raw pr h
  show estimate_confidence_from_json pr raw = 0 ↔
    (pr.license_plate_number = "" ∨
      hasSubstring "UNREADABLE" pr.license_plate_number = true)
  rw [est_zero_iff]
  rcases hsh with hp | ⟨s, hp⟩
  · simp [hp]
  · rw [hp, pyUpper_idem]

theorem zeroConfInv_run (cfg : OcrConfig) (out : Nat → ApiOutcome) (jit : Nat → ℚ)
    (mode64 : Bool) :
    ∀ fuel idx lastErr, ZeroConfInv ((run_attempts cfg out jit mode64 idx fuel lastErr).1) := by
  intro fuel
  induction fuel with
  | zero => intro idx le; exact zeroConfInv_exhausted cfg mode64 le
  | succ m ih =>
      intro idx le
      cases hout : out idx with
      | failure msg =>
          have hstep : (run_attempts cfg out jit mode64 idx (m + 1) le).1 =
              (run_attempts cfg out jit mode64 (idx + 1) m (some msg)).1 := by
            simp only [run_attempts, hout]
          rw [hstep]
          exact ih (idx + 1) (some msg)
      | success raw =>
          cases hp : parse_json_response raw with
          | error emsg =>
              have hstep : (run_attempts cfg out jit mode64 idx (m + 1) le).1 =
                  (run_attempts cfg out jit mode64 (idx + 1) m (some emsg)).1 := by
                simp only [run_attempts, hout, hp]
              rw [hstep]
              exact ih (idx + 1) (some emsg)
          | ok pr =>
              have hstep : (run_attempts cfg out jit mode64 idx (m + 1) le).1 =
                  success_result cfg mode64 pr raw (idx + 1) := by
                simp only [run_attempts, hout, hp]
              rw [hstep]
              exact zeroConfInv_success cfg mode64 pr raw (idx + 1) hp

theorem zeroConfInv_urlmeta (r : OcrResult) (a b : Option String) (h : ZeroConfInv r) :
    ZeroConfInv { r with image_path := a, mode := b } := h

theorem zeroConfInv_fb (r : OcrResult) (h : ZeroConfInv r) :
    ZeroConfInv { r with fallback := some true } := h

/-- C8: for every record returned by `read_text` — success or exhausted —
`confidence == 0.0` iff `license_plate_number` is empty or contains the
sentinel `UNREADABLE`. -/
theorem confidence_zero_iff_unreadable (cfg : OcrConfig) (detId : Option Nat)
    (fn : Option String) (saveRes : Except String String)
    (uOut : Nat → ApiOutcome) (uJit : Nat → ℚ) (bOut : Nat → ApiOutcome) (bJit : Nat → ℚ) :
    (read_text cfg detId fn saveRes uOut uJit bOut bJit).confidence = 0 ↔
      ((read_text cfg detId fn saveRes uOut uJit bOut bJit).license_plate_number = "" ∨
        hasSubstring "UNREADABLE"
          (read_text cfg detId fn saveRes uOut uJit bOut bJit).license_plate_number = true) := by
  show ZeroConfInv (read_text cfg detId fn saveRes uOut uJit bOut bJit)
  unfold read_text
  by_cases hu : cfg.use_image_url = true
  · rw [if_pos hu]
    cases detId with
    | none =>
        exact zeroConfInv_fb _ (zeroConfInv_run cfg bOut bJit true cfg.max_retries 0 none)
    | some d =>
        cases fn with
        | none =>
            exact zeroConfInv_fb _ (zeroConfInv_run cfg bOut bJit true cfg.max_retries 0 none)
        | some f =>
            cases saveRes with
            | ok path =>
                exact zeroConfInv_urlmeta _ (some path) (some "url")
                  (zeroConfInv_run cfg uOut uJit false cfg.max_retries 0 none)
            | error e =>
                exact zeroConfInv_fb _ (zeroConfInv_run cfg bOut bJit true cfg.max_retries 0 none)
  · rw [if_neg hu]
    exact zeroConfInv_run cfg bOut bJit true cfg.max_retries 0 none

/-!
## Claims C1, C2, C10 — exhausted retries and the fallback policy
-/

theorem call_all_fail_fst (cfg : OcrConfig) (out : Nat → ApiOutcome) (jit : Nat → ℚ)
    (mode64 : Bool) (msgs : Nat → String)
    (hmr : 1 ≤ cfg.max_retries)
    (h : ∀ i, i < cfg.max_retries → out i = ApiOutcome.failure (msgs i)) :
    (run_attempts cfg out jit mode64 0 cfg.max_retries none).1 =
      exhausted_result cfg mode64 (some (msgs (cfg.max_retries - 1))) := by
  have heq := run_attempts_all_fail cfg out jit mode64 msgs cfg.max_retries 0 none
    (fun i h1 h2 => h i (by omega))
  rw [heq]
  obtain ⟨k, hk⟩ : ∃ k, cfg.max_retries = k + 1 := ⟨cfg.max_retries - 1, by omega⟩
  rw [hk]
  simp

/-- C1 counterexample: with `max_retries = 1` and an exception whose textual
description is empty, the returned `error` field is the empty string — the
claim's "non-empty error field" fails even though every attempt failed. -/
theorem read_text_exhausted_empty_error_cex :
    (read_text ⟨"m", 1, 3, false⟩ none none (Except.ok "p")
        (fun _ => ApiOutcome.failure "") (fun _ => 0)
        (fun _ => ApiOutcome.failure "") (fun _ => 0)).error = some "" ∧
    (read_text ⟨"m", 1, 3, false⟩ none none (Except.ok "p")
        (fun _ => ApiOutcome.failure "") (fun _ => 0)
        (fun _ => ApiOutcome.failure "") (fun _ => 0)).attempts = 1 ∧
    (read_text ⟨"m", 1, 3, false⟩ none none (Except.ok "p")
        (fun _ => ApiOutcome.failure "") (fun _ => 0)
        (fun _ => ApiOutcome.failure "") (fun _ => 0)).confidence = 0 :=
  ⟨rfl, rfl, rfl⟩

/-- C1 (amended): when every one of the `max_retries` attempts fails,
`read_text` returns (never raises) a record with empty plate and province,
`confidence = 0.0`, `attempts = max_retries`, and the `error` field set to
the textual description of the last failure — which is non-empty exactly
when that description is non-empty. -/
theorem read_text_exhausted_record (cfg : OcrConfig) (detId : Option Nat) (fn : Option String)
    (saveRes : Except String String) (uOut : Nat → ApiOutcome) (uJit : Nat → ℚ)
    (bOut : Nat → ApiOutcome) (bJit : Nat → ℚ) (msgs : Nat → String)
    (hmr : 1 ≤ cfg.max_retries)
    (hu : ∀ i, i < cfg.max_retries → uOut i = ApiOutcome.failure (msgs i))
    (hb : ∀ i, i < cfg.max_retries → bOut i = ApiOutcome.failure (msgs i)) :
    (read_text cfg detId fn saveRes uOut uJit bOut bJit).license_plate_number = "" ∧
    (read_text cfg detId fn saveRes uOut uJit bOut bJit).province = "" ∧
    (read_text cfg detId fn saveRes uOut uJit bOut bJit).confidence = 0 ∧
    (read_text cfg detId fn saveRes uOut uJit bOut bJit).attempts = cfg.max_retries ∧
    (read_text cfg detId fn saveRes uOut uJit bOut bJit).error =
      some (msgs (cfg.max_retries - 1)) := by
  have hurl' : (call_gemini_with_url cfg uOut uJit).1 =
      exhausted_result cfg false (some (msgs (cfg.max_retries - 1))) := by
    rw [call_gemini_with_url]
    exact call_all_fail_fst cfg uOut uJit false msgs hmr hu
  have hb64' : (call_gemini_with_base64 cfg bOut bJit).1 =
      exhausted_result cfg true (some (msgs (cfg.max_retries - 1))) := by
    rw [call_gemini_with_base64]
    exact call_all_fail_fst cfg bOut bJit true msgs hmr hb
  unfold read_text fallback_to_base64
  by_cases hcu : cfg.use_image_url = true
  · rw [if_pos hcu]
    cases detId with
    | none =>
        rw [hb64']
        exact ⟨rfl, rfl, rfl, rfl, rfl⟩
    | some d =>
        cases fn with
        | none =>
            rw [hb64']
            exact ⟨rfl, rfl, rfl, rfl, rfl⟩
        | some f =>
            cases saveRes with
            | ok path =>
                rw [hurl']
                exact ⟨rfl, rfl, rfl, rfl, rfl⟩
            | error e =>
                rw [hb64']
                exact ⟨rfl, rfl, rfl, rfl, rfl⟩
  · rw [if_neg hcu, hb64']
    exact ⟨rfl, rfl, rfl, rfl, rfl⟩

/-- Witness for the amended C1: one all-failing call in base64 mode. -/
theorem read_text_exhausted_record_witness :
    (read_text ⟨"m", 1, 3, false⟩ none none (Except.ok "p")
        (fun _ => ApiOutcome.failure "boom") (fun _ => 0)
        (fun _ => ApiOutcome.failure "boom") (fun _ => 0)).license_plate_number = "" ∧
    (read_text ⟨"m", 1, 3, false⟩ none none (Except.ok "p")
        (fun _ => ApiOutcome.failure "boom") (fun _ => 0)
        (fun _ => ApiOutcome.failure "boom") (fun _ => 0)).confidence = 0 ∧
    (read_text ⟨"m", 1, 3, false⟩ none none (Except.ok "p")
        (fun _ => ApiOutcome.failure "boom") (fun _ => 0)
        (fun _ => ApiOutcome.failure "boom") (fun _ => 0)).attempts = 1 ∧
    (read_text ⟨"m", 1, 3, false⟩ none none (Except.ok "p")
        (fun _ => ApiOutcome.failure "boom") (fun _ => 0)
        (fun _ => ApiOutcome.failure "boom") (fun _ => 0)).error = some "boom" :=
  have h := read_text_exhausted_record ⟨"m", 1, 3, false⟩ none none (Except.ok "p")
    (fun _ => ApiOutcome.failure "boom") (fun _ => 0)
    (fun _ => ApiOutcome.failure "boom") (fun _ => 0) (fun _ => "boom")
    (le_refl 1) (fun _ _ => rfl) (fun _ _ => rfl)
  ⟨h.1, h.2.2.1, h.2.2.2.1, h.2.2.2.2⟩

/-- C2 counterexample: with a successful crop write, API-side failures are
retried inside url mode and the exhausted record is returned with
`mode == "url"` and no `fallback` key — no fallback to base64 happens. -/
theorem read_text_api_failure_no_fallback_cex :
    (read_text ⟨"m", 1, 3, true⟩ (some 1) (some "a.jpg") (Except.ok "p.jpg")
        (fun _ => ApiOutcome.failure "reference rejected") (fun _ => 0)
        (fun _ => ApiOutcome.failure "reference rejected") (fun _ => 0)).mode = some "url" ∧
    (read_text ⟨"m", 1, 3, true⟩ (some 1) (some "a.jpg") (Except.ok "p.jpg")
        (fun _ => ApiOutcome.failure "reference rejected") (fun _ => 0)
        (fun _ => ApiOutcome.failure "reference rejected") (fun _ => 0)).fallback = none :=
  ⟨rfl, rfl⟩

/-- C2 (amended): in url mode with a valid detection id and filename, the
fallback to inline base64 happens exactly when saving the crop raises; the
final result then has `mode == "base64"` and `fallback == true`, whatever
the inline attempts do (single hop: even if they all fail, a record is
returned with the same mode and fallback marker). -/
theorem read_text_storage_failure_fallback (cfg : OcrConfig) (d : Nat) (f : String)
    (emsg : String) (uOut : Nat → ApiOutcome) (uJit : Nat → ℚ)
    (bOut : Nat → ApiOutcome) (bJit : Nat → ℚ)
    (hurl : cfg.use_image_url = true) :
    (read_text cfg (some d) (some f) (Except.error emsg) uOut uJit bOut bJit).mode =
      some "base64" ∧
    (read_text cfg (some d) (some f) (Except.error emsg) uOut uJit bOut bJit).fallback =
      some true := by
  unfold read_text
  rw [if_pos hurl]
  constructor
  · show (call_gemini_with_base64 cfg bOut bJit).1.mode = some "base64"
    exact run_attempts_mode64 cfg bOut bJit cfg.max_retries 0 none
  · rfl

/-- Witness for the amended C2: a concrete storage failure with all-failing
inline attempts. -/
theorem read_text_storage_failure_fallback_witness :
    (read_text ⟨"m", 2, 3, true⟩ (some 7) (some "car.jpg") (Except.error "disk full")
        (fun _ => ApiOutcome.failure "x") (fun _ => 0)
        (fun _ => ApiOutcome.failure "x") (fun _ => 0)).mode = some "base64" ∧
    (read_text ⟨"m", 2, 3, true⟩ (some 7) (some "car.jpg") (Except.error "disk full")
        (fun _ => ApiOutcome.failure "x") (fun _ => 0)
        (fun _ => ApiOutcome.failure "x") (fun _ => 0)).fallback = some true :=
  read_text_storage_failure_fallback ⟨"m", 2, 3, true⟩ 7 "car.jpg" "disk full"
    (fun _ => ApiOutcome.failure "x") (fun _ => 0)
    (fun _ => ApiOutcome.failure "x") (fun _ => 0) rfl

/-- C10: in url mode with a valid detection id and filename, when the crop
is written successfully and every one of the `max_retries` API attempts then
fails, `read_text` returns the exhausted-retries record with `mode == "url"`
and no `fallback` key: API failures after a successful artifact write never
trigger the base64 fallback. -/
theorem read_text_url_exhausted_no_fallback (cfg : OcrConfig) (d : Nat) (f path : String)
    (uOut : Nat → ApiOutcome) (uJit : Nat → ℚ) (bOut : Nat → ApiOutcome) (bJit : Nat → ℚ)
    (msgs : Nat → String)
    (hurl : cfg.use_image_url = true) (hmr : 1 ≤ cfg.max_retries)
    (hu : ∀ i, i < cfg.max_retries → uOut i = ApiOutcome.failure (msgs i)) :
    (read_text cfg (some d) (some f) (Except.ok path) uOut uJit bOut bJit).mode = some "url" ∧
    (read_text cfg (some d) (some f) (Except.ok path) uOut uJit bOut bJit).fallback = none ∧
    (read_text cfg (some d) (some f) (Except.ok path) uOut uJit bOut bJit).image_path =
      some path ∧
    (read_text cfg (some d) (some f) (Except.ok path) uOut uJit bOut bJit).attempts =
      cfg.max_retries ∧
    (read_text cfg (some d) (some f) (Except.ok path) uOut uJit bOut bJit).confidence = 0 ∧
    (read_text cfg (some d) (some f) (Except.ok path) uOut uJit bOut
      bJit).license_plate_number = "" ∧
    (read_text cfg (some d) (some f) (Except.ok path) uOut uJit bOut bJit).error =
      some (msgs (cfg.max_retries - 1)) := by
  have hurl' : (call_gemini_with_url cfg uOut uJit).1 =
      exhausted_result cfg false (some (msgs (cfg.max_retries - 1))) := by
    rw [call_gemini_with_url]
    exact call_all_fail_fst cfg uOut uJit false msgs hmr hu
  unfold read_text
  rw [if_pos hurl, hurl']
  exact ⟨rfl, rfl, rfl, rfl, rfl, rfl, rfl⟩

/-- Witness for C10: a concrete 1-attempt url-mode call whose API attempt
fails after a successful crop write. -/
theorem read_text_url_exhausted_no_fallback_witness :
    (read_text ⟨"m", 1, 3, true⟩ (some 4) (some "img.jpg") (Except.ok "out.jpg")
        (fun _ => ApiOutcome.failure "503 overloaded") (fun _ => 0)
        (fun _ => ApiOutcome.failure "503 overloaded") (fun _ => 0)).mode = some "url" ∧
    (read_text ⟨"m", 1, 3, true⟩ (some 4) (some "img.jpg") (Except.ok "out.jpg")
        (fun _ => ApiOutcome.failure "503 overloaded") (fun _ => 0)
        (fun _ => ApiOutcome.failure "503 overloaded") (fun _ => 0)).fallback = none ∧
    (read_text ⟨"m", 1, 3, true⟩ (some 4) (some "img.jpg") (Except.ok "out.jpg")
        (fun _ => ApiOutcome.failure "503 overloaded") (fun _ => 0)
        (fun _ => ApiOutcome.failure "503 overloaded") (fun _ => 0)).attempts = 1 ∧
    (read_text ⟨"m", 1, 3, true⟩ (some 4) (some "img.jpg") (Except.ok "out.jpg")
        (fun _ => ApiOutcome.failure "503 overloaded") (fun _ => 0)
        (fun _ => ApiOutcome.failure "503 overloaded") (fun _ => 0)).error =
      some "503 overloaded" :=
  have h := read_text_url_exhausted_no_fallback ⟨"m", 1, 3, true⟩ 4 "img.jpg" "out.jpg"
    (fun _ => ApiOutcome.failure "503 overloaded") (fun _ => 0)
    (fun _ => ApiOutcome.failure "503 overloaded") (fun _ => 0)
    (fun _ => "503 overloaded") rfl (le_refl 1) (fun _ _ => rfl)
  ⟨h.1, h.2.1, h.2.2.2.1, h.2.2.2.2.2.2⟩

end CctvOcr
